import Mathlib

/-!
Verification of the tracker repository: a dual-stream alignment and
round-tracking engine over JSON event streams.

The definitions below are a shallow embedding of the Rust sources:

* `State`, `StateBuffer`           from src/domain/state.rs
* `Json`, `JsonPathExtractor`      from src/port/parser.rs
* `AlignedConfig`, `processEvent`, `checkAlignment`, `checkRoundCompletion`,
  `crossComparison`, `runEvents`   from src/service/aligned.rs
* backoff functions                from src/adapter/websocket.rs
* `Command`, `mainDispatch`        from src/main.rs

Conventions of the embedding: the engine is generic over the payload type
`alpha` and over the key extractor (mirroring the Rust generics over
`serde_json::Value` and the `AlignmentKeyExtractor` trait); side effects
(log lines and diff printing that carry comparison content, file reports,
visual rendering) are modelled as an output trace of `Report` values;
log lines that carry no comparison content are not modelled except for the
waiting and aligned notices that the spec counts as reports; the arrival
timestamp on `State` is real time and is not modelled (no claim depends
on it); JSON numbers are modelled as integers (the only numeric claim
instance is the integer 42).
-/

set_option maxHeartbeats 2000000

namespace Tracker

/-- Side of an incoming event: the merge loop receives from a left and a
right channel (the two `tokio::select!` arms of `AlignedTracker::start`). -/
inductive Side where
  | left
  | right
deriving DecidableEq, Repr

/-- Embedding of `State` (src/domain/state.rs): a payload tagged with its
optional alignment key.  The `timestamp` field (real arrival time) is not
modelled. -/
structure State (α : Type) where
  data : α
  alignmentKey : Option String
deriving DecidableEq, Repr

/-- Embedding of `StateBuffer` (src/domain/state.rs): a `Vec` of states plus
a capacity bound. -/
structure StateBuffer (α : Type) where
  states : List (State α)
  maxSize : Nat
deriving DecidableEq, Repr

/-- `StateBuffer::new` (src/domain/state.rs line 33). -/
def StateBuffer.new (α : Type) (maxSize : Nat) : StateBuffer α :=
  { states := [], maxSize := maxSize }

/-- `StateBuffer::push` (src/domain/state.rs lines 37-42): append, then if
the length exceeds `max_size` remove the front element (`Vec::remove(0)`,
here `List.tail`). -/
def StateBuffer.push (b : StateBuffer α) (s : State α) : StateBuffer α :=
  let grown := b.states ++ [s]
  if grown.length > b.maxSize then { b with states := grown.tail }
  else { b with states := grown }

/-- `StateBuffer::latest` (src/domain/state.rs line 44). -/
def StateBuffer.latest (b : StateBuffer α) : Option (State α) :=
  b.states.getLast?

/-- `StateBuffer::latest_alignment_key` (src/domain/state.rs line 48). -/
def StateBuffer.latestAlignmentKey (b : StateBuffer α) : Option String :=
  b.latest.bind (fun s => s.alignmentKey)

/-- `StateBuffer::clear` (src/domain/state.rs lines 56-58). -/
def StateBuffer.clear (b : StateBuffer α) : StateBuffer α :=
  { b with states := [] }

/-- `StateBuffer::len` (src/domain/state.rs line 60). -/
def StateBuffer.len (b : StateBuffer α) : Nat :=
  b.states.length

/-- Fold a sequence of pushes into a buffer, modelling repeated calls of
`StateBuffer::push`. -/
def StateBuffer.pushAll (b : StateBuffer α) (xs : List (State α)) : StateBuffer α :=
  xs.foldl StateBuffer.push b

end Tracker

namespace Tracker

/-- The `OutputMode` enum of src/service/aligned.rs (lines 29-34). -/
inductive OutputMode where
  | visual
  | prettyDiff
  | logs
deriving DecidableEq, Repr

/-- Construction-time configuration of `AlignedTracker`
(src/service/aligned.rs lines 12-27).  The left/right sources and the
differ are external collaborators; the extractor is embedded as a function,
mirroring the `AlignmentKeyExtractor` trait object. -/
structure AlignedConfig (α : Type) where
  extractKey : α → Option String
  roundEndSignal : Option String
  visual : Bool
  reportOutput : Option String
  prettyDiff : Bool
  maxRounds : Option Nat

/-- `AlignedTracker::output_mode` (src/service/aligned.rs lines 76-85):
priority visual, then pretty diff, then logs. -/
def AlignedConfig.outputMode (c : AlignedConfig α) : OutputMode :=
  if c.visual then OutputMode.visual
  else if c.prettyDiff then OutputMode.prettyDiff
  else OutputMode.logs

/-- Observable comparison output of the engine.  Each constructor records
one print, log or render action of src/service/aligned.rs that carries
comparison content:

* `alignedLog` - logs-mode aligned notice (line 288), no differ call;
* `alignedDiff` - pretty-mode aligned diff over both payloads (line 292);
* `outOfSync` - latest keys differ, both keys named (lines 300, 303);
* `leftAhead` and `rightAhead` - only one side has a key (lines 306-321);
* `roundWaitLeft` and `roundWaitRight` - one flag set, logs mode
  (lines 420-423);
* `matchDiff` - round cross-comparison differ call (lines 364-365);
* `missingRight` - keyed left state with no right match (line 367);
* `onlyRight` - keyed right state with no left match (line 375);
* `renderRound` - visual-mode round rendering (line 347);
* `roundReport` - round report file generation (lines 384-402). -/
inductive Report (α : Type) where
  | alignedLog (key : String)
  | alignedDiff (key : String) (leftData rightData : α)
  | outOfSync (leftKey rightKey : String)
  | leftAhead (key : String)
  | rightAhead (key : String)
  | roundWaitLeft
  | roundWaitRight
  | matchDiff (key : String) (leftData rightData : α)
  | missingRight (key : String)
  | onlyRight (key : String)
  | renderRound (leftStates rightStates : List (State α))
  | roundReport (leftStates rightStates : List (State α))
deriving DecidableEq, Repr

/-- Mutable loop state of `AlignedTracker::start`
(src/service/aligned.rs lines 91-96): both buffers, both round-completion
flags and the round counter. -/
structure EngineState (α : Type) where
  leftBuffer : StateBuffer α
  rightBuffer : StateBuffer α
  leftRoundComplete : Bool
  rightRoundComplete : Bool
  roundsCompleted : Nat
deriving DecidableEq, Repr

/-- Initial loop state of `AlignedTracker::start` (lines 91-96): two empty
buffers of capacity 100, both flags false, zero rounds. -/
def initState (α : Type) : EngineState α :=
  { leftBuffer := StateBuffer.new α 100
    rightBuffer := StateBuffer.new α 100
    leftRoundComplete := false
    rightRoundComplete := false
    roundsCompleted := 0 }

/-- `AlignedTracker::check_alignment` (src/service/aligned.rs
lines 277-324): compare the two buffers' latest keys and report. -/
def checkAlignment (c : AlignedConfig α) (leftBuffer rightBuffer : StateBuffer α) :
    List (Report α) :=
  let mode := c.outputMode
  match leftBuffer.latestAlignmentKey, rightBuffer.latestAlignmentKey with
  | some lKey, some rKey =>
    if lKey = rKey then
      match leftBuffer.latest, rightBuffer.latest with
      | some leftState, some rightState =>
        match mode with
        | OutputMode.logs => [Report.alignedLog lKey]
        | OutputMode.prettyDiff => [Report.alignedDiff lKey leftState.data rightState.data]
        | OutputMode.visual => []
      | _, _ => []
    else
      match mode with
      | OutputMode.prettyDiff => [Report.outOfSync lKey rKey]
      | OutputMode.logs => [Report.outOfSync lKey rKey]
      | OutputMode.visual => []
  | some lKey, none =>
    match mode with
    | OutputMode.prettyDiff => [Report.leftAhead lKey]
    | OutputMode.logs => [Report.leftAhead lKey]
    | OutputMode.visual => []
  | none, some rKey =>
    match mode with
    | OutputMode.prettyDiff => [Report.rightAhead rKey]
    | OutputMode.logs => [Report.rightAhead rKey]
    | OutputMode.visual => []
  | none, none => []

/-- Left half of the round cross-comparison (src/service/aligned.rs
lines 357-370): for each keyed left state, find the first right state with
the same key and diff, else report missing on the right. -/
def crossCompareLeft (rightStates : List (State α)) : List (State α) → List (Report α)
  | [] => []
  | s :: rest =>
    (match s.alignmentKey with
     | some key =>
       match rightStates.find? (fun r => r.alignmentKey == some key) with
       | some rightState => [Report.matchDiff key s.data rightState.data]
       | none => [Report.missingRight key]
     | none => []) ++ crossCompareLeft rightStates rest

/-- Right half of the round cross-comparison (src/service/aligned.rs
lines 372-379): report each keyed right state whose key appears on no left
state. -/
def crossCompareRight (leftStates : List (State α)) : List (State α) → List (Report α)
  | [] => []
  | s :: rest =>
    (match s.alignmentKey with
     | some key =>
       if leftStates.any (fun l => l.alignmentKey == some key) then []
       else [Report.onlyRight key]
     | none => []) ++ crossCompareRight leftStates rest

/-- The full cross-comparison at a round boundary
(src/service/aligned.rs lines 356-379): left-buffer order first, then
right-buffer order. -/
def crossComparison (leftStates rightStates : List (State α)) : List (Report α) :=
  crossCompareLeft rightStates leftStates ++ crossCompareRight leftStates rightStates

/-- `AlignedTracker::check_round_completion` (src/service/aligned.rs
lines 326-427).  Returns the updated loop state, the emitted reports and
the should-exit flag.  When both flags are set: increment the counter,
emit the round comparison (visual rendering in visual mode, the
cross-comparison otherwise), emit a file report when one is configured,
clear both buffers, reset both flags, and signal exit when the round
counter has reached a configured maximum. -/
def checkRoundCompletion (c : AlignedConfig α) (st : EngineState α) :
    EngineState α × List (Report α) × Bool :=
  let mode := c.outputMode
  if st.leftRoundComplete ∧ st.rightRoundComplete then
    let rounds := st.roundsCompleted + 1
    let leftStates := st.leftBuffer.states
    let rightStates := st.rightBuffer.states
    let compareReports :=
      if c.visual then [Report.renderRound leftStates rightStates]
      else crossComparison leftStates rightStates
    let fileReports : List (Report α) :=
      match c.reportOutput with
      | some _ => [Report.roundReport leftStates rightStates]
      | none => []
    let st1 : EngineState α :=
      { leftBuffer := st.leftBuffer.clear
        rightBuffer := st.rightBuffer.clear
        leftRoundComplete := false
        rightRoundComplete := false
        roundsCompleted := rounds }
    let shouldExit :=
      match c.maxRounds with
      | some maxR => rounds ≥ maxR
      | none => false
    (st1, compareReports ++ fileReports, shouldExit)
  else if st.leftRoundComplete ∧ mode = OutputMode.logs then
    (st, [Report.roundWaitLeft], false)
  else if st.rightRoundComplete ∧ mode = OutputMode.logs then
    (st, [Report.roundWaitRight], false)
  else
    (st, [], false)

/-- One iteration of the merge loop of `AlignedTracker::start` on a
received event (src/service/aligned.rs lines 120-263, both select arms are
symmetric): extract the key, mark the side's completion flag when the key
equals the configured round-end signal, push the state, then run either
the round-completion check or the continuous alignment check. -/
def processEvent (c : AlignedConfig α) (st : EngineState α) (side : Side) (data : α) :
    EngineState α × List (Report α) × Bool :=
  let alignmentKey := c.extractKey data
  let s : State α := { data := data, alignmentKey := alignmentKey }
  let isSignal :=
    match alignmentKey, c.roundEndSignal with
    | some key, some signal => key == signal
    | _, _ => false
  let st1 :=
    match side with
    | Side.left =>
      { st with
        leftRoundComplete := st.leftRoundComplete || isSignal
        leftBuffer := st.leftBuffer.push s }
    | Side.right =>
      { st with
        rightRoundComplete := st.rightRoundComplete || isSignal
        rightBuffer := st.rightBuffer.push s }
  match c.roundEndSignal with
  | some _ => checkRoundCompletion c st1
  | none => (st1, checkAlignment c st1.leftBuffer st1.rightBuffer, false)

/-- Run the merge loop over a finite sequence of delivered events (the
interleaving the `tokio::select!` loop happens to observe).  Processing
stops as soon as `check_round_completion` signals exit; remaining events
are never consumed (`return Ok(())` at src/service/aligned.rs
lines 174-179 and 246-251). -/
def runEvents (c : AlignedConfig α) :
    EngineState α → List (Side × α) → EngineState α × List (Report α) × Bool
  | st, [] => (st, [], false)
  | st, (side, data) :: rest =>
    let r := processEvent c st side data
    if r.2.2 then (r.1, r.2.1, true)
    else
      let rr := runEvents c r.1 rest
      (rr.1, r.2.1 ++ rr.2.1, rr.2.2)

/-- Control-state trace of the merge loop: the loop state after each
processed event, plus the final exit decision. -/
def runTrace (c : AlignedConfig α) :
    EngineState α → List (Side × α) → List (EngineState α) × Bool
  | _, [] => ([], false)
  | st, (side, data) :: rest =>
    let r := processEvent c st side data
    if r.2.2 then ([r.1], true)
    else
      let rr := runTrace c r.1 rest
      (r.1 :: rr.1, rr.2)

/-- Embedding of `TrackerError` (src/domain/error.rs). -/
inductive TrackerError where
  | webSocket (message : String)
  | json (message : String)
  | channelClosed
deriving DecidableEq, Repr

/-- Result of `AlignedTracker::start` on a delivered event sequence: every
return path of the Rust function yields `Ok` (src/service/aligned.rs
lines 178, 250, 274), so the run always succeeds with the loop outcome. -/
def alignedStart (c : AlignedConfig α) (events : List (Side × α)) :
    Except TrackerError (EngineState α × List (Report α) × Bool) :=
  Except.ok (runEvents c (initState α) events)

/-- Helper for `interleavings`: interleave `x :: xs` with the second list,
where `f` computes the interleavings of `xs` with any second list. -/
def interleavingsAux {σ : Type} (x : σ) (xs : List σ)
    (f : List σ → List (List σ)) : List σ → List (List σ)
  | [] => [x :: xs]
  | y :: ys =>
    (f (y :: ys)).map (fun l => x :: l) ++
      (interleavingsAux x xs f ys).map (fun l => y :: l)

/-- All interleavings of two per-side event sequences that preserve each
side's order: the set of delivery orders the merge loop can observe. -/
def interleavings {σ : Type} : List σ → List σ → List (List σ)
  | [], ys => [ys]
  | x :: xs, ys => interleavingsAux x xs (interleavings xs) ys

/-- Recognize a differ invocation in the output trace: `print_diff` is
called at src/service/aligned.rs line 292 (continuous pretty mode) and
line 365 (round cross-comparison). -/
def isDiffInvocation : Report α → Bool
  | Report.alignedDiff _ _ _ => true
  | Report.matchDiff _ _ _ => true
  | _ => false

/-- Recognize a round cross-comparison match report carrying a given key. -/
def isMatchOn (k : String) : Report α → Bool
  | Report.matchDiff key _ _ => key == k
  | _ => false

/-- Recognize a missing-key warning of the round cross-comparison. -/
def isMissingReport : Report α → Bool
  | Report.missingRight _ => true
  | Report.onlyRight _ => true
  | _ => false

/-- Recognize an aligned notice of the continuous policy. -/
def isAlignedReport : Report α → Bool
  | Report.alignedLog _ => true
  | Report.alignedDiff _ _ _ => true
  | _ => false

/-- Recognize an out-of-sync report of the continuous policy. -/
def isOutOfSyncReport : Report α → Bool
  | Report.outOfSync _ _ => true
  | _ => false

end Tracker

namespace Tracker

/-- Embedding of `serde_json::Value` for the key-extractor claims.
Numbers are modelled as integers (see the file header). -/
inductive Json where
  | str (s : String)
  | num (n : Int)
  | bool (b : Bool)
  | null
  | arr (items : List Json)
  | obj (fields : List (String × Json))

/-- `serde_json::Value::get` on a string index: field lookup on an object,
`None` on every other variant. -/
def Json.get (j : Json) (field : String) : Option Json :=
  match j with
  | Json.obj fields => fields.lookup field
  | _ => none

/-- Embedding of `JsonPathExtractor` (src/port/parser.rs lines 11-13). -/
structure JsonPathExtractor where
  fieldPath : List String

/-- `JsonPathExtractor::new` (src/port/parser.rs lines 17-19): split the
dot-separated path into field names. -/
def JsonPathExtractor.new (path : String) : JsonPathExtractor :=
  { fieldPath := path.splitOn "." }

/-- The navigation loop of `JsonPathExtractor::extract_key`
(src/port/parser.rs lines 26-29): walk the field path, stopping with
`none` at the first field that `get` does not resolve. -/
def Json.getPath : Json → List String → Option Json
  | j, [] => some j
  | j, field :: rest =>
    match j.get field with
    | some next => next.getPath rest
    | none => none

/-- The leaf canonicalization of `JsonPathExtractor::extract_key`
(src/port/parser.rs lines 32-37): a string, number or boolean leaf becomes
a string, anything else yields no key. -/
def Json.scalarToString : Json → Option String
  | Json.str s => some s
  | Json.num n => some (toString n)
  | Json.bool b => some (toString b)
  | _ => none

/-- `JsonPathExtractor::extract_key` (src/port/parser.rs lines 23-38). -/
def JsonPathExtractor.extractKey (e : JsonPathExtractor) (state : Json) : Option String :=
  (state.getPath e.fieldPath).bind Json.scalarToString

end Tracker

namespace Tracker

/-- Delay actually slept after a failure iteration of
`WebSocketSource::spawn` (src/adapter/websocket.rs line 75):
the current backoff seconds capped at 30. -/
def backoffDelay (backoffSecs : Nat) : Nat := min backoffSecs 30

/-- Backoff update after the sleep (src/adapter/websocket.rs line 78):
double the stored `u64` with a floor of 2.  The stored value is never
capped - only the slept delay is (line 75) - so the doubling is u64
machine arithmetic: release builds wrap on overflow, modelled here with
an explicit mod 2^64, while debug builds panic at that same doubling. -/
def backoffNext (backoffSecs : Nat) : Nat := max (backoffSecs * 2 % 2 ^ 64) 2

/-- Backoff reset on a successful connection
(src/adapter/websocket.rs line 35). -/
def backoffReset (_backoffSecs : Nat) : Nat := 1

/-- Initial backoff state (src/adapter/websocket.rs line 30). -/
def initialBackoff : Nat := 1

/-- Delays slept over a run of consecutive failure events (a connect error
or a disconnect of an established connection; each reaches the common
sleep at src/adapter/websocket.rs lines 75-78) starting from a given
backoff state. -/
def failureDelays (backoffSecs : Nat) : Nat → List Nat
  | 0 => []
  | k + 1 => backoffDelay backoffSecs :: failureDelays (backoffNext backoffSecs) k

end Tracker

namespace Tracker

/-- Arguments of the `track` subcommand (src/main.rs lines 43-73). -/
structure TrackArgs where
  leftUrl : String
  rightUrl : String
  alignBy : String
  roundEnd : Option String
  visual : Bool
  report : Option String
  once : Bool
  maxRounds : Option Nat
  pretty : Bool
deriving DecidableEq, Repr

/-- Arguments of the `example` subcommand (src/main.rs lines 75-106). -/
structure ExampleArgs where
  leftInterval : Nat
  rightInterval : Nat
  pretty : Bool
  alignBy : Option String
  roundEnd : Option String
  visual : Bool
  report : Option String
  once : Bool
  maxRounds : Option Nat
deriving DecidableEq, Repr

/-- The parsed command surface (src/main.rs lines 27-107). -/
inductive Command where
  | diff (leftUrl rightUrl : String) (pretty : Bool) (engine : String)
  | track (args : TrackArgs)
  | exampleCmd (args : ExampleArgs)
deriving DecidableEq, Repr

/-- Options an `AlignedTracker` is constructed with by `main`
(the builder chain of src/main.rs lines 176-189 and 227-243). -/
structure AlignedSetup where
  alignBy : String
  roundEndSignal : Option String
  visual : Bool
  reportOutput : Option String
  prettyDiff : Bool
  maxRounds : Option Nat
deriving DecidableEq, Repr

/-- Outcome of `main`'s dispatch on a parsed command, before any source is
spawned: exit with an error status and message, run the plain `Tracker`,
or run an `AlignedTracker` with the given setup. -/
inductive MainOutcome where
  | exitError (code : Nat) (message : String)
  | runPlain (pretty : Bool)
  | runAligned (setup : AlignedSetup)
deriving DecidableEq, Repr

/-- The dispatch logic of `main` (src/main.rs lines 138-253): the `track`
arm validates that a report path comes with a round-end signal and exits
with status 1 otherwise (lines 159-167), resolves `--once` over
`--max-rounds` (line 170), and builds the aligned tracker; the `example`
arm does the same only when `--align-by` is given (lines 209-251) and
otherwise runs the plain tracker, ignoring the report path. -/
def mainDispatch : Command → MainOutcome
  | Command.diff _ _ pretty _ => MainOutcome.runPlain pretty
  | Command.track a =>
    if a.report.isSome ∧ a.roundEnd = none then
      MainOutcome.exitError 1 "error: --report requires --round-end to be set"
    else
      let finalMaxRounds := if a.once then some 1 else a.maxRounds
      MainOutcome.runAligned
        { alignBy := a.alignBy
          roundEndSignal := a.roundEnd
          visual := a.visual
          reportOutput := a.report
          prettyDiff := a.pretty
          maxRounds := finalMaxRounds }
  | Command.exampleCmd a =>
    match a.alignBy with
    | some field =>
      if a.report.isSome ∧ a.roundEnd = none then
        MainOutcome.exitError 1 "error: --report requires --round-end to be set"
      else
        let finalMaxRounds := if a.once then some 1 else a.maxRounds
        MainOutcome.runAligned
          { alignBy := field
            roundEndSignal := a.roundEnd
            visual := a.visual
            reportOutput := a.report
            prettyDiff := a.pretty
            maxRounds := finalMaxRounds }
    | none => MainOutcome.runPlain a.pretty

/-- True when the outcome is an exit with a non-zero status before any
source connects. -/
def exitsNonZero : MainOutcome → Bool
  | MainOutcome.exitError code _ => code != 0
  | _ => false

end Tracker

namespace Tracker

/-- Modelled from the spec: the missing counterpart is the specified
pairing rule of cross-comparison (spec section 4.3, round policy), which
pairs each keyed left state with the earliest right state of equal key
that no earlier left state has already matched.  `used` collects the
indices of right states already matched. -/
def findEarliestUnmatched (key : String) (used : List Nat) :
    List (Nat × State α) → Option (Nat × State α)
  | [] => none
  | (i, s) :: rest =>
    if i ∉ used ∧ s.alignmentKey = some key then some (i, s)
    else findEarliestUnmatched key used rest

/-- Modelled from the spec: left pass of the specified cross-comparison,
pairing each keyed left state with the earliest unmatched right state of
equal key, reporting missing-on-right when none exists; returns the
reports and the matched right indices. -/
def specCompareLeft (rightIndexed : List (Nat × State α)) (used : List Nat) :
    List (State α) → List (Report α) × List Nat
  | [] => ([], used)
  | s :: rest =>
    match s.alignmentKey with
    | none => specCompareLeft rightIndexed used rest
    | some key =>
      match findEarliestUnmatched key used rightIndexed with
      | some (i, rightState) =>
        let next := specCompareLeft rightIndexed (used ++ [i]) rest
        (Report.matchDiff key s.data rightState.data :: next.1, next.2)
      | none =>
        let next := specCompareLeft rightIndexed used rest
        (Report.missingRight key :: next.1, next.2)

/-- Modelled from the spec: the full specified cross-comparison of spec
section 4.3 - left pass with earliest-unmatched pairing, then a report for
each keyed right state matched by no left state, in left-buffer order then
right-buffer order. -/
def crossComparisonSpec (leftStates rightStates : List (State α)) : List (Report α) :=
  let leftPass := specCompareLeft rightStates.enum [] leftStates
  leftPass.1 ++
    rightStates.enum.filterMap (fun p =>
      match p.2.alignmentKey with
      | some key => if p.1 ∈ leftPass.2 then none else some (Report.onlyRight key)
      | none => none)

/-- Declarative form of what the code's cross-comparison actually does:
each keyed left state is paired with the earliest right state sharing its
key, whether or not an earlier left state already matched it, and each
keyed right state whose key appears on no left state is reported, once per
state, in left-buffer order then right-buffer order. -/
def crossComparisonFirstMatch (leftStates rightStates : List (State α)) : List (Report α) :=
  leftStates.filterMap (fun s =>
    match s.alignmentKey with
    | some key =>
      match rightStates.find? (fun r => r.alignmentKey == some key) with
      | some rightState => some (Report.matchDiff key s.data rightState.data)
      | none => some (Report.missingRight key)
    | none => none) ++
  rightStates.filterMap (fun s =>
    match s.alignmentKey with
    | some key =>
      if leftStates.any (fun l => l.alignmentKey == some key) then none
      else some (Report.onlyRight key)
    | none => none)

end Tracker

namespace Tracker

/-- Concrete left buffer contents with a repeated key, used to examine the
cross-comparison matching rule. -/
def repeatedKeyLeft : List (State String) :=
  [{ data := "a", alignmentKey := some "K" }, { data := "b", alignmentKey := some "K" }]

/-- Concrete right buffer contents with a repeated key, used to examine
the cross-comparison matching rule. -/
def repeatedKeyRight : List (State String) :=
  [{ data := "c", alignmentKey := some "K" }, { data := "d", alignmentKey := some "K" }]

/-- Concrete continuous-mode configuration in the default logs output mode
with an extractor that keys every payload as "A". -/
def logsContinuousConfig : AlignedConfig String :=
  { extractKey := fun _ => some "A"
    roundEndSignal := none
    visual := false
    reportOutput := none
    prettyDiff := false
    maxRounds := none }

/-- Concrete continuous-mode configuration in pretty-diff output mode with
the identity extractor. -/
def prettyContinuousConfig : AlignedConfig String :=
  { extractKey := fun s => some s
    roundEndSignal := none
    visual := false
    reportOutput := none
    prettyDiff := true
    maxRounds := none }

/-- Concrete round-mode configuration with signal "END", identity
extractor, logs output. -/
def roundModeConfig : AlignedConfig String :=
  { extractKey := fun s => some s
    roundEndSignal := some "END"
    visual := false
    reportOutput := none
    prettyDiff := false
    maxRounds := none }

/-- Concrete round-mode configuration with signal "E" and a maximum of two
rounds. -/
def maxTwoConfig : AlignedConfig String :=
  { extractKey := fun s => some s
    roundEndSignal := some "E"
    visual := false
    reportOutput := none
    prettyDiff := false
    maxRounds := some 2 }

/-- Concrete JSON value: an object whose "message" field holds an object
whose "phase" field is the string "A". -/
def jsonMessagePhase : Json :=
  Json.obj [("message", Json.obj [("phase", Json.str "A")])]

/-- Concrete JSON value: an object whose "type" field is the number 42. -/
def jsonTypeNum : Json :=
  Json.obj [("type", Json.num 42)]

/-- Concrete `example` invocation carrying a report path but neither a
round-end signal nor an alignment field. -/
def exampleReportNoAlign : ExampleArgs :=
  { leftInterval := 1000
    rightInterval := 1500
    pretty := false
    alignBy := none
    roundEnd := none
    visual := false
    report := some "report.html"
    once := false
    maxRounds := none }

/-- Concrete `track` invocation passing both `--once` and
`--max-rounds 7`. -/
def trackOnceMaxSeven : TrackArgs :=
  { leftUrl := "ws-left"
    rightUrl := "ws-right"
    alignBy := "type"
    roundEnd := some "END"
    visual := false
    report := none
    once := true
    maxRounds := some 7
    pretty := false }

end Tracker

namespace Tracker

theorem StateBuffer.push_states (b : StateBuffer α) (s : State α) :
    (b.push s).states =
      if (b.states ++ [s]).length > b.maxSize then (b.states ++ [s]).tail
      else b.states ++ [s] := by
  simp only [StateBuffer.push]
  split <;> rfl

theorem StateBuffer.push_maxSize (b : StateBuffer α) (s : State α) :
    (b.push s).maxSize = b.maxSize := by
  simp only [StateBuffer.push]
  split <;> rfl

theorem StateBuffer.pushAll_append (b : StateBuffer α) (xs : List (State α)) (x : State α) :
    b.pushAll (xs ++ [x]) = (b.pushAll xs).push x := by
  simp [StateBuffer.pushAll, List.foldl_append]

theorem StateBuffer.pushAll_new_states (α : Type) (N : Nat) (xs : List (State α)) :
    ((StateBuffer.new α N).pushAll xs).states = xs.drop (xs.length - N) ∧
    ((StateBuffer.new α N).pushAll xs).maxSize = N := by
  induction xs using List.reverseRecOn with
  | nil => simp [StateBuffer.pushAll, StateBuffer.new]
  | append_singleton xs x ih =>
    obtain ⟨hs, hm⟩ := ih
    rw [StateBuffer.pushAll_append]
    refine ⟨?_, by rw [StateBuffer.push_maxSize, hm]⟩
    rw [StateBuffer.push_states, hs, hm]
    rw [show (xs ++ [x]).length = xs.length + 1 from by simp]
    by_cases hN : xs.length + 1 ≤ N
    · have h0 : xs.length - N = 0 := by omega
      have h1 : xs.length + 1 - N = 0 := by omega
      have hlen : (xs.drop (xs.length - N) ++ [x]).length = xs.length + 1 := by
        simp [h0]
      rw [if_neg (by omega), h0, h1]
      simp
    · have hmN : N ≤ xs.length := by omega
      have hlen : (xs.drop (xs.length - N)).length = N := by
        rw [List.length_drop]; omega
      have hgt : (xs.drop (xs.length - N) ++ [x]).length > N := by
        simp [hlen]
      rw [if_pos hgt]
      have happ : xs.drop (xs.length - N) ++ [x] = (xs ++ [x]).drop (xs.length - N) := by
        rw [List.drop_append_of_le_length (by omega)]
      rw [happ, List.tail_drop]
      congr 1
      omega

/-- Claim C4: for every sequence of pushes on a buffer of capacity N the
length never exceeds N, insertion order is preserved, and after more than
N pushes the buffer holds exactly the last N pushed states in arrival
order: the contents always equal the pushed sequence with all but its last
N elements dropped. -/
theorem stateBuffer_capacity_fifo (α : Type) (N : Nat) (xs : List (State α)) :
    ((StateBuffer.new α N).pushAll xs).states = xs.drop (xs.length - N) ∧
    ((StateBuffer.new α N).pushAll xs).states.length ≤ N ∧
    ((StateBuffer.new α N).pushAll xs).states.length = min xs.length N := by
  have h := StateBuffer.pushAll_new_states α N xs
  refine ⟨h.1, ?_, ?_⟩ <;> rw [h.1, List.length_drop] <;> omega

end Tracker

namespace Tracker

/-- Claim C8, evaluated at the failing input: a successful connection
resets the stored backoff to 1, and over the first 64 consecutive failure
events (connect errors or disconnects) the i-th sleep, counting from 1,
lasts min(2^(i-1), 30) units - but on the 65th consecutive failure the
claim's formula demands min(2^64, 30) = 30 while the code's uncapped u64
doubling wraps the stored value (2^63 * 2 mod 2^64 = 0), the floor of 2
takes over, and only 2 units are slept (release semantics; debug builds
panic at that doubling instead of sleeping at all). -/
theorem websocket_backoff_overflow :
    backoffReset 0 = 1 ∧
    backoffReset 12345 = 1 ∧
    failureDelays (backoffReset 0) 64 =
      (List.range 64).map (fun i => min (2 ^ i) 30) ∧
    min (2 ^ 64) 30 = 30 ∧
    (failureDelays (backoffReset 0) 65).getLast? = some 2 ∧
    (failureDelays (backoffReset 0) 65).getLast? ≠ some (min (2 ^ 64) 30) := by
  decide

end Tracker

namespace Tracker

/-- Claim C7: the path-based key extractor walks its ordered field path,
returns no key at the first missing field or at a non-scalar leaf
(array, object, null), canonicalizes a scalar leaf (string, number,
boolean) to a string, and on the three specified inputs yields key "A",
no key, and key "42" respectively.  The dot-separated path arguments
message.phase, message.missing and type appear as the field-name lists
that `JsonPathExtractor.new` splits them into. -/
theorem jsonPathExtractor_extract_key_spec :
    (∀ (field : String) (rest : List String) (j : Json),
        j.get field = none →
        (JsonPathExtractor.mk (field :: rest)).extractKey j = none) ∧
    (∀ (path : List String) (j : Json) (items : List Json),
        j.getPath path = some (Json.arr items) →
        (JsonPathExtractor.mk path).extractKey j = none) ∧
    (∀ (path : List String) (j : Json) (fields : List (String × Json)),
        j.getPath path = some (Json.obj fields) →
        (JsonPathExtractor.mk path).extractKey j = none) ∧
    (∀ (path : List String) (j : Json),
        j.getPath path = some Json.null →
        (JsonPathExtractor.mk path).extractKey j = none) ∧
    (∀ (path : List String) (j : Json) (s : String),
        j.getPath path = some (Json.str s) →
        (JsonPathExtractor.mk path).extractKey j = some s) ∧
    (∀ (path : List String) (j : Json) (n : Int),
        j.getPath path = some (Json.num n) →
        (JsonPathExtractor.mk path).extractKey j = some (toString n)) ∧
    (∀ (path : List String) (j : Json) (b : Bool),
        j.getPath path = some (Json.bool b) →
        (JsonPathExtractor.mk path).extractKey j = some (toString b)) ∧
    (JsonPathExtractor.mk ["message", "phase"]).extractKey jsonMessagePhase = some "A" ∧
    (JsonPathExtractor.mk ["message", "missing"]).extractKey jsonMessagePhase = none ∧
    (JsonPathExtractor.mk ["type"]).extractKey jsonTypeNum = some "42" := by
  refine ⟨?_, ?_, ?_, ?_, ?_, ?_, ?_, ?_, ?_, ?_⟩
  · intro field rest j h
    simp [JsonPathExtractor.extractKey, Json.getPath, h]
  · intro path j items h
    simp [JsonPathExtractor.extractKey, h, Json.scalarToString]
  · intro path j fields h
    simp [JsonPathExtractor.extractKey, h, Json.scalarToString]
  · intro path j h
    simp [JsonPathExtractor.extractKey, h, Json.scalarToString]
  · intro path j s h
    simp [JsonPathExtractor.extractKey, h, Json.scalarToString]
  · intro path j n h
    simp [JsonPathExtractor.extractKey, h, Json.scalarToString]
  · intro path j b h
    simp [JsonPathExtractor.extractKey, h, Json.scalarToString]
  · decide
  · decide
  · decide

/-- Witness for C7: the general clauses applied at a concrete input - a
one-field path on an empty object has a missing first field, so no key is
extracted. -/
theorem jsonPathExtractor_extract_key_spec_witness :
    (JsonPathExtractor.mk ["a"]).extractKey (Json.obj []) = none :=
  jsonPathExtractor_extract_key_spec.1 "a" [] (Json.obj []) rfl

end Tracker

namespace Tracker

/-- Counterexample to claim C9: an `example` invocation with a report path
but no round-end signal and no alignment field does not exit with a
non-zero status; it runs the plain tracker and silently drops the report
path (src/main.rs lines 247-250, where the validation of lines 212-224 is
skipped because it sits inside the `Some(field)` arm of `align_by`). -/
theorem report_without_round_end_counterexample :
    exampleReportNoAlign.report.isSome = true ∧
    exampleReportNoAlign.roundEnd = none ∧
    mainDispatch (Command.exampleCmd exampleReportNoAlign) = MainOutcome.runPlain false ∧
    exitsNonZero (mainDispatch (Command.exampleCmd exampleReportNoAlign)) = false := by
  decide

/-- Claim C9 as amended: a `track` invocation, or an `example` invocation
with an alignment field, that passes a report path without a round-end
signal exits with status 1 and the explanatory message before any source
connects; an `example` invocation without an alignment field instead runs
the plain tracker, ignoring the report path. -/
theorem report_requires_round_end_amended :
    (∀ a : TrackArgs, a.report.isSome = true → a.roundEnd = none →
      mainDispatch (Command.track a) =
        MainOutcome.exitError 1 "error: --report requires --round-end to be set") ∧
    (∀ (a : ExampleArgs) (field : String), a.alignBy = some field →
      a.report.isSome = true → a.roundEnd = none →
      mainDispatch (Command.exampleCmd a) =
        MainOutcome.exitError 1 "error: --report requires --round-end to be set") ∧
    (∀ a : ExampleArgs, a.alignBy = none →
      mainDispatch (Command.exampleCmd a) = MainOutcome.runPlain a.pretty) := by
  refine ⟨?_, ?_, ?_⟩
  · intro a h1 h2
    simp [mainDispatch, h1, h2]
  · intro a field hf h1 h2
    simp [mainDispatch, hf, h1, h2]
  · intro a hf
    simp [mainDispatch, hf]

/-- Witness for the amended C9: a concrete `track` invocation with a
report path and no round-end signal exits with status 1 and the
explanatory message. -/
theorem report_requires_round_end_amended_witness :
    mainDispatch (Command.track
      { leftUrl := "ws-left", rightUrl := "ws-right", alignBy := "type",
        roundEnd := none, visual := false, report := some "out.html",
        once := false, maxRounds := none, pretty := false }) =
      MainOutcome.exitError 1 "error: --report requires --round-end to be set" :=
  report_requires_round_end_amended.1 _ rfl rfl

/-- Claim C10: when `--once` is passed together with `--max-rounds N` to
the `track` or `example` command, every aligned tracker actually
constructed is configured with a maximum of exactly 1 round, regardless of
N (src/main.rs lines 169-170 and 239-243). -/
theorem once_overrides_max_rounds :
    (∀ (a : TrackArgs) (s : AlignedSetup), a.once = true →
      mainDispatch (Command.track a) = MainOutcome.runAligned s →
      s.maxRounds = some 1) ∧
    (∀ (a : ExampleArgs) (s : AlignedSetup), a.once = true →
      mainDispatch (Command.exampleCmd a) = MainOutcome.runAligned s →
      s.maxRounds = some 1) := by
  constructor
  · intro a s h1 h2
    by_cases hv : a.report.isSome = true ∧ a.roundEnd = none
    · simp [mainDispatch, hv] at h2
    · simp [mainDispatch, hv, h1] at h2
      rw [← h2]
  · intro a s h1 h2
    cases halign : a.alignBy with
    | none => simp [mainDispatch, halign] at h2
    | some field =>
      by_cases hv : a.report.isSome = true ∧ a.roundEnd = none
      · simp [mainDispatch, halign, hv] at h2
      · simp [mainDispatch, halign, hv, h1] at h2
        rw [← h2]

/-- Witness for C10: the concrete `track` invocation passing both `--once`
and `--max-rounds 7` is configured with a maximum of exactly 1 round. -/
theorem once_overrides_max_rounds_witness :
    (AlignedSetup.mk "type" (some "END") false none false (some 1)).maxRounds = some 1 :=
  once_overrides_max_rounds.1 trackOnceMaxSeven
    (AlignedSetup.mk "type" (some "END") false none false (some 1)) rfl rfl

end Tracker

namespace Tracker

/-- Counterexample to claim C2: with a repeated key K on both sides, the
code pairs the second left state with the same earliest right state as the
first (payload "c"), not with the earliest unmatched one (payload "d"),
and reports no right-only key even though one right state went unmatched;
the specified earliest-unmatched cross-comparison disagrees. -/
theorem crossComparison_repeated_key_counterexample :
    crossComparison repeatedKeyLeft repeatedKeyRight =
      [Report.matchDiff "K" "a" "c", Report.matchDiff "K" "b" "c"] ∧
    crossComparisonSpec repeatedKeyLeft repeatedKeyRight =
      [Report.matchDiff "K" "a" "c", Report.matchDiff "K" "b" "d"] ∧
    crossComparison repeatedKeyLeft repeatedKeyRight ≠
      crossComparisonSpec repeatedKeyLeft repeatedKeyRight := by
  decide

/-- Claim C2 as amended: at every round completion the cross-comparison
pairs each keyed left state with the earliest right state sharing its key,
whether or not an earlier left state already matched that right state,
and diffs the pair; when no right state shares the key it reports that
left state's key as missing on the right, once per such left state; then
it reports each keyed right state whose key appears on no left state,
once per such right state; iteration proceeds in left-buffer order, then
right-buffer order. -/
theorem crossComparison_first_match (α : Type) (leftStates rightStates : List (State α)) :
    crossComparison leftStates rightStates =
      crossComparisonFirstMatch leftStates rightStates := by
  unfold crossComparison crossComparisonFirstMatch
  congr 1
  · induction leftStates with
    | nil => rfl
    | cons s rest ih =>
      rw [crossCompareLeft, List.filterMap_cons]
      cases s.alignmentKey with
      | none => simpa using ih
      | some key =>
        cases h : rightStates.find? (fun r => r.alignmentKey == some key) with
        | none => simp [h, ih]
        | some rs => simp [h, ih]
  · induction rightStates with
    | nil => rfl
    | cons s rest ih =>
      rw [crossCompareRight, List.filterMap_cons]
      cases s.alignmentKey with
      | none => simpa using ih
      | some key =>
        by_cases h : leftStates.any (fun l => l.alignmentKey == some key)
        · simp [h, ih]
        · simp [h, ih]

end Tracker

namespace Tracker

/-- Counterexample to claim C3: in continuous mode under the default logs
output mode, left emitting key "A" and then right emitting key "A"
produces zero differ invocations, not one - the aligned case only logs
(src/service/aligned.rs lines 287-289); `print_diff` is reached only in
pretty-diff mode (line 292). -/
theorem continuous_logs_mode_no_diff_counterexample :
    logsContinuousConfig.roundEndSignal = none ∧
    logsContinuousConfig.extractKey "x1" = some "A" ∧
    logsContinuousConfig.extractKey "x2" = some "A" ∧
    (runEvents logsContinuousConfig (initState String)
        [(Side.left, "x1"), (Side.right, "x2")]).2.1 =
      [Report.leftAhead "A", Report.alignedLog "A"] ∧
    ((runEvents logsContinuousConfig (initState String)
        [(Side.left, "x1"), (Side.right, "x2")]).2.1.filter isDiffInvocation).length = 0 := by
  decide

end Tracker

namespace Tracker

/-- Claim C3 as amended: in continuous mode from empty buffers, after left
emits a keyed event and right emits a keyed event, the behaviour depends
on the output mode - with equal keys, pretty-diff mode makes exactly one
differ invocation over the two latest payloads while logs mode emits one
aligned notice and zero differ invocations; with different keys there are
zero differ invocations and, outside visual mode, exactly one out-of-sync
report naming both keys. -/
theorem continuous_alignment_by_mode (α : Type) (c : AlignedConfig α) (a b : α)
    (ka kb : String)
    (hsig : c.roundEndSignal = none)
    (ha : c.extractKey a = some ka) (hb : c.extractKey b = some kb) :
    ((ka = kb → c.outputMode = OutputMode.prettyDiff →
      (runEvents c (initState α) [(Side.left, a), (Side.right, b)]).2.1.filter
          isDiffInvocation = [Report.alignedDiff ka a b]) ∧
     (ka = kb → c.outputMode = OutputMode.logs →
      (runEvents c (initState α) [(Side.left, a), (Side.right, b)]).2.1.filter
          isDiffInvocation = [] ∧
      (runEvents c (initState α) [(Side.left, a), (Side.right, b)]).2.1.filter
          isAlignedReport = [Report.alignedLog ka]) ∧
     (ka ≠ kb →
      (runEvents c (initState α) [(Side.left, a), (Side.right, b)]).2.1.filter
          isDiffInvocation = [] ∧
      (c.outputMode ≠ OutputMode.visual →
       (runEvents c (initState α) [(Side.left, a), (Side.right, b)]).2.1.filter
          isOutOfSyncReport = [Report.outOfSync ka kb]))) := by
  refine ⟨?_, ?_, ?_⟩
  · intro hk hm
    subst hk
    simp [runEvents, processEvent, checkAlignment, hsig, ha, hb, hm, initState,
      StateBuffer.push, StateBuffer.new, StateBuffer.latestAlignmentKey,
      StateBuffer.latest, isDiffInvocation]
  · intro hk hm
    subst hk
    simp [runEvents, processEvent, checkAlignment, hsig, ha, hb, hm, initState,
      StateBuffer.push, StateBuffer.new, StateBuffer.latestAlignmentKey,
      StateBuffer.latest, isDiffInvocation, isAlignedReport]
  · intro hne
    constructor
    · cases hmode : c.outputMode <;>
        simp [runEvents, processEvent, checkAlignment, hsig, ha, hb, hmode, hne, initState,
          StateBuffer.push, StateBuffer.new, StateBuffer.latestAlignmentKey,
          StateBuffer.latest, isDiffInvocation]
    · intro hnv
      cases hmode : c.outputMode with
      | visual => exact absurd hmode hnv
      | prettyDiff =>
        simp [runEvents, processEvent, checkAlignment, hsig, ha, hb, hmode, hne, initState,
          StateBuffer.push, StateBuffer.new, StateBuffer.latestAlignmentKey,
          StateBuffer.latest, isOutOfSyncReport]
      | logs =>
        simp [runEvents, processEvent, checkAlignment, hsig, ha, hb, hmode, hne, initState,
          StateBuffer.push, StateBuffer.new, StateBuffer.latestAlignmentKey,
          StateBuffer.latest, isOutOfSyncReport]

/-- Witness for the amended C3: in pretty-diff continuous mode with the
identity extractor, left "A" then right "A" yields exactly one differ
invocation over the two payloads. -/
theorem continuous_alignment_by_mode_witness :
    (runEvents prettyContinuousConfig (initState String)
        [(Side.left, "A"), (Side.right, "A")]).2.1.filter isDiffInvocation =
      [Report.alignedDiff "A" "A" "A"] :=
  (continuous_alignment_by_mode String prettyContinuousConfig "A" "A" "A" "A"
    rfl rfl rfl).1 rfl rfl

end Tracker

namespace Tracker

theorem checkRoundCompletion_noRound (c : AlignedConfig α) (st : EngineState α)
    (hn : ¬(st.leftRoundComplete = true ∧ st.rightRoundComplete = true)) :
    (checkRoundCompletion c st).1 = st ∧ (checkRoundCompletion c st).2.2 = false := by
  unfold checkRoundCompletion
  rw [if_neg hn]
  refine ⟨?_, ?_⟩ <;> split_ifs <;> rfl

theorem checkRoundCompletion_control (c1 c2 : AlignedConfig α) (st : EngineState α)
    (hmax : c1.maxRounds = c2.maxRounds) :
    (checkRoundCompletion c1 st).1 = (checkRoundCompletion c2 st).1 ∧
    (checkRoundCompletion c1 st).2.2 = (checkRoundCompletion c2 st).2.2 := by
  by_cases hflags : st.leftRoundComplete = true ∧ st.rightRoundComplete = true
  · unfold checkRoundCompletion
    rw [if_pos hflags, if_pos hflags]
    exact ⟨rfl, by simp [hmax]⟩
  · obtain ⟨a1, b1⟩ := checkRoundCompletion_noRound c1 st hflags
    obtain ⟨a2, b2⟩ := checkRoundCompletion_noRound c2 st hflags
    exact ⟨a1.trans a2.symm, b1.trans b2.symm⟩

theorem processEvent_control (c1 c2 : AlignedConfig α) (st : EngineState α)
    (side : Side) (data : α)
    (hext : c1.extractKey = c2.extractKey)
    (hsig : c1.roundEndSignal = c2.roundEndSignal)
    (hmax : c1.maxRounds = c2.maxRounds) :
    (processEvent c1 st side data).1 = (processEvent c2 st side data).1 ∧
    (processEvent c1 st side data).2.2 = (processEvent c2 st side data).2.2 := by
  cases side <;> cases h2 : c2.roundEndSignal <;>
    rw [processEvent, processEvent, hext, hsig, h2] <;>
    simp only []
  case left.none => simp
  case right.none => simp
  case left.some sig =>
    exact checkRoundCompletion_control c1 c2 _ hmax
  case right.some sig =>
    exact checkRoundCompletion_control c1 c2 _ hmax

/-- Claim C6: the selected output mode (the visual and pretty-diff flags,
which determine Visual, PrettyDiff or Logs) never changes the alignment
and round decisions - on the same input and from the same state, any two
mode choices yield the identical control trace: the same buffers, flags
and round counter after every event, and the same termination decision. -/
theorem output_mode_noninterference (α : Type) (c : AlignedConfig α)
    (v1 p1 v2 p2 : Bool) (st : EngineState α) (events : List (Side × α)) :
    runTrace { c with visual := v1, prettyDiff := p1 } st events =
      runTrace { c with visual := v2, prettyDiff := p2 } st events := by
  induction events generalizing st with
  | nil => rfl
  | cons ev rest ih =>
    obtain ⟨side, data⟩ := ev
    have h1 := processEvent_control { c with visual := v1, prettyDiff := p1 }
      { c with visual := v2, prettyDiff := p2 } st side data rfl rfl rfl
    simp only [runTrace]
    rw [h1.1, h1.2]
    cases hexit :
        (processEvent { c with visual := v2, prettyDiff := p2 } st side data).2.2 <;>
      simp [hexit, ih]

end Tracker

namespace Tracker

theorem checkRoundCompletion_complete (c : AlignedConfig α) (st : EngineState α)
    (h : st.leftRoundComplete = true ∧ st.rightRoundComplete = true) :
    (checkRoundCompletion c st).1.roundsCompleted = st.roundsCompleted + 1 ∧
    ((checkRoundCompletion c st).2.2 = true ↔
      ∃ m, c.maxRounds = some m ∧ st.roundsCompleted + 1 ≥ m) := by
  unfold checkRoundCompletion
  rw [if_pos h]
  refine ⟨rfl, ?_⟩
  cases hm : c.maxRounds with
  | none => simp
  | some m => simp [ge_iff_le]

theorem checkRoundCompletion_step_max2 (c : AlignedConfig α)
    (hmax : c.maxRounds = some 2) (st : EngineState α)
    (hst : st.roundsCompleted ≤ 1) :
    ((checkRoundCompletion c st).2.2 = false →
      (checkRoundCompletion c st).1.roundsCompleted ≤ 1) ∧
    ((checkRoundCompletion c st).2.2 = true →
      (checkRoundCompletion c st).1.roundsCompleted = 2) := by
  by_cases hflags : st.leftRoundComplete = true ∧ st.rightRoundComplete = true
  · obtain ⟨h1, h2⟩ := checkRoundCompletion_complete c st hflags
    constructor
    · intro hf
      rw [h1]
      by_contra hgt
      have : (checkRoundCompletion c st).2.2 = true :=
        h2.mpr ⟨2, hmax, by omega⟩
      rw [hf] at this
      exact Bool.false_ne_true this
    · intro ht
      obtain ⟨m, hm, hge⟩ := h2.mp ht
      rw [hmax] at hm
      have hm2 : m = 2 := by injection hm with h; omega
      rw [h1]
      omega
  · obtain ⟨h1, h2⟩ := checkRoundCompletion_noRound c st hflags
    rw [h1, h2]
    exact ⟨fun _ => hst, fun h => absurd h Bool.false_ne_true⟩

theorem processEvent_step_max2 (c : AlignedConfig α) (hmax : c.maxRounds = some 2)
    (st : EngineState α) (side : Side) (d : α) (hst : st.roundsCompleted ≤ 1) :
    ((processEvent c st side d).2.2 = false →
      (processEvent c st side d).1.roundsCompleted ≤ 1) ∧
    ((processEvent c st side d).2.2 = true →
      (processEvent c st side d).1.roundsCompleted = 2) := by
  cases side <;> cases hsig : c.roundEndSignal <;> simp only [processEvent, hsig]
  case left.none => exact ⟨fun _ => hst, fun h => absurd h Bool.false_ne_true⟩
  case right.none => exact ⟨fun _ => hst, fun h => absurd h Bool.false_ne_true⟩
  case left.some sig => exact checkRoundCompletion_step_max2 c hmax _ hst
  case right.some sig => exact checkRoundCompletion_step_max2 c hmax _ hst

theorem runEvents_max2 (c : AlignedConfig α) (hmax : c.maxRounds = some 2) :
    ∀ (evs : List (Side × α)) (st : EngineState α), st.roundsCompleted ≤ 1 →
    ((runEvents c st evs).2.2 = false → (runEvents c st evs).1.roundsCompleted ≤ 1) ∧
    ((runEvents c st evs).2.2 = true → (runEvents c st evs).1.roundsCompleted = 2) := by
  intro evs
  induction evs with
  | nil =>
    intro st hst
    simp only [runEvents]
    exact ⟨fun _ => hst, fun h => absurd h Bool.false_ne_true⟩
  | cons ev rest ih =>
    intro st hst
    obtain ⟨side, d⟩ := ev
    obtain ⟨hfalse, htrue⟩ := processEvent_step_max2 c hmax st side d hst
    simp only [runEvents]
    cases hexit : (processEvent c st side d).2.2 with
    | true =>
      rw [if_pos rfl]
      exact ⟨fun h => absurd h (by simp), fun _ => htrue hexit⟩
    | false =>
      rw [if_neg Bool.false_ne_true]
      exact ih (processEvent c st side d).1 (hfalse hexit)

theorem runEvents_append_of_exit (c : AlignedConfig α) :
    ∀ (p q : List (Side × α)) (st : EngineState α),
      (runEvents c st p).2.2 = true →
      runEvents c st (p ++ q) = runEvents c st p := by
  intro p
  induction p with
  | nil =>
    intro q st h
    simp [runEvents] at h
  | cons ev rest ih =>
    intro q st h
    obtain ⟨side, d⟩ := ev
    simp only [runEvents, List.cons_append] at h ⊢
    cases hexit : (processEvent c st side d).2.2 with
    | true => rw [if_pos rfl, if_pos rfl]
    | false =>
      rw [if_neg (by simp [hexit])] at h
      rw [if_neg Bool.false_ne_true, if_neg Bool.false_ne_true]
      have h2 : (runEvents c (processEvent c st side d).1 rest).2.2 = true := by
        simpa using h
      simp only [List.append_eq]
      rw [ih q _ h2]

/-- Claim C5: with a maximum of 2 rounds configured, the engine never
passes 2 completed rounds - if the run has not exited the counter is at
most 1, and when it exits the counter is exactly 2, every event delivered
after the exit point is ignored (so the engine terminates even if both
sources keep producing), and `start` returns success, not an error. -/
theorem max_rounds_two_terminates (α : Type) (c : AlignedConfig α)
    (hmax : c.maxRounds = some 2) (evs rest : List (Side × α)) :
    ((runEvents c (initState α) evs).2.2 = false →
      (runEvents c (initState α) evs).1.roundsCompleted ≤ 1) ∧
    ((runEvents c (initState α) evs).2.2 = true →
      (runEvents c (initState α) evs).1.roundsCompleted = 2 ∧
      runEvents c (initState α) (evs ++ rest) = runEvents c (initState α) evs ∧
      alignedStart c (evs ++ rest) = Except.ok (runEvents c (initState α) evs)) := by
  have h := runEvents_max2 c hmax evs (initState α) (by simp [initState])
  refine ⟨h.1, fun ht => ⟨h.2 ht, ?_, ?_⟩⟩
  · exact runEvents_append_of_exit c evs rest _ ht
  · rw [alignedStart, runEvents_append_of_exit c evs rest _ ht]

/-- Witness for C5: with round-end signal "E" and a maximum of 2 rounds, a
concrete run completing two rounds exits with the counter at exactly 2,
ignores a further event, and returns success. -/
theorem max_rounds_two_terminates_witness :
    (runEvents maxTwoConfig (initState String)
        [(Side.left, "E"), (Side.right, "E"), (Side.left, "E"),
          (Side.right, "E")]).1.roundsCompleted = 2 ∧
    runEvents maxTwoConfig (initState String)
        ([(Side.left, "E"), (Side.right, "E"), (Side.left, "E"), (Side.right, "E")] ++
          [(Side.left, "extra")]) =
      runEvents maxTwoConfig (initState String)
        [(Side.left, "E"), (Side.right, "E"), (Side.left, "E"), (Side.right, "E")] ∧
    alignedStart maxTwoConfig
        ([(Side.left, "E"), (Side.right, "E"), (Side.left, "E"), (Side.right, "E")] ++
          [(Side.left, "extra")]) =
      Except.ok (runEvents maxTwoConfig (initState String)
        [(Side.left, "E"), (Side.right, "E"), (Side.left, "E"), (Side.right, "E")]) :=
  (max_rounds_two_terminates String maxTwoConfig rfl
    [(Side.left, "E"), (Side.right, "E"), (Side.left, "E"), (Side.right, "E")]
    [(Side.left, "extra")]).2 (by decide)

end Tracker

namespace Tracker

theorem option_beq_some_some (a b : String) :
    ((some a : Option String) == some b) = (a == b) := rfl

theorem option_beq_some_none (a : String) :
    ((some a : Option String) == none) = false := rfl

theorem option_beq_none_some (b : String) :
    ((none : Option String) == some b) = false := rfl

/-- Claim C1: in round mode with signal "END", for every interleaving in
which left emits a keyed event x (key k, different from "END") then "END",
and right emits x then "END", after the last event exactly one round has
completed: the counter is 1, both buffers are empty, the cross-comparison
reported exactly one match on key k (diffing the two x payloads) and zero
missing-key warnings.  The visual flag is off, as visual mode replaces the
cross-comparison by rendering. -/
theorem round_mode_single_round (α : Type) (c : AlignedConfig α) (x e : α) (k : String)
    (hsig : c.roundEndSignal = some "END")
    (hx : c.extractKey x = some k)
    (hk : k ≠ "END")
    (he : c.extractKey e = some "END")
    (hv : c.visual = false)
    (evs : List (Side × α))
    (hevs : evs ∈ interleavings [(Side.left, x), (Side.left, e)]
        [(Side.right, x), (Side.right, e)]) :
    (runEvents c (initState α) evs).1.roundsCompleted = 1 ∧
    (runEvents c (initState α) evs).1.leftBuffer.states = [] ∧
    (runEvents c (initState α) evs).1.rightBuffer.states = [] ∧
    (runEvents c (initState α) evs).2.1.filter (isMatchOn k) =
      [Report.matchDiff k x x] ∧
    (runEvents c (initState α) evs).2.1.filter isMissingReport = [] := by
  have hkbeq : (k == "END") = false := beq_eq_false_iff_ne.mpr hk
  have hkbeq2 : ("END" == k) = false := beq_eq_false_iff_ne.mpr (Ne.symm hk)
  have hilist : interleavings [(Side.left, x), (Side.left, e)]
      [(Side.right, x), (Side.right, e)] =
      [[(Side.left, x), (Side.left, e), (Side.right, x), (Side.right, e)],
       [(Side.left, x), (Side.right, x), (Side.left, e), (Side.right, e)],
       [(Side.left, x), (Side.right, x), (Side.right, e), (Side.left, e)],
       [(Side.right, x), (Side.left, x), (Side.left, e), (Side.right, e)],
       [(Side.right, x), (Side.left, x), (Side.right, e), (Side.left, e)],
       [(Side.right, x), (Side.right, e), (Side.left, x), (Side.left, e)]] := rfl
  rw [hilist] at hevs
  simp only [List.mem_cons, List.not_mem_nil, or_false] at hevs
  rcases hevs with rfl | rfl | rfl | rfl | rfl | rfl <;>
    cases hro : c.reportOutput <;> cases hpd : c.prettyDiff <;>
      simp [runEvents, processEvent, checkRoundCompletion, checkAlignment,
        crossComparison, crossCompareLeft, crossCompareRight, initState,
        StateBuffer.new, StateBuffer.push, StateBuffer.clear,
        StateBuffer.latestAlignmentKey, StateBuffer.latest,
        AlignedConfig.outputMode, hsig, hx, he, hv, hro, hpd, hkbeq, hkbeq2,
        option_beq_some_some, option_beq_some_none, option_beq_none_some,
        isMatchOn, isMissingReport, List.find?, apply_ite]

/-- Witness for C1: with the identity extractor and signal "END", the
interleaving left X, left END, right X, right END completes exactly one
round with one match on X and no missing-key warnings. -/
theorem round_mode_single_round_witness :
    (runEvents roundModeConfig (initState String)
        [(Side.left, "X"), (Side.left, "END"), (Side.right, "X"),
          (Side.right, "END")]).1.roundsCompleted = 1 ∧
    (runEvents roundModeConfig (initState String)
        [(Side.left, "X"), (Side.left, "END"), (Side.right, "X"),
          (Side.right, "END")]).1.leftBuffer.states = [] ∧
    (runEvents roundModeConfig (initState String)
        [(Side.left, "X"), (Side.left, "END"), (Side.right, "X"),
          (Side.right, "END")]).1.rightBuffer.states = [] ∧
    (runEvents roundModeConfig (initState String)
        [(Side.left, "X"), (Side.left, "END"), (Side.right, "X"),
          (Side.right, "END")]).2.1.filter (isMatchOn "X") =
      [Report.matchDiff "X" "X" "X"] ∧
    (runEvents roundModeConfig (initState String)
        [(Side.left, "X"), (Side.left, "END"), (Side.right, "X"),
          (Side.right, "END")]).2.1.filter isMissingReport = [] :=
  round_mode_single_round String roundModeConfig "X" "END" "X" rfl rfl
    (by decide) rfl rfl
    [(Side.left, "X"), (Side.left, "END"), (Side.right, "X"), (Side.right, "END")]
    (by decide)

end Tracker
